import Mathlib

/-!
Shallow embedding of `plot_z25.py`, a linear pipeline that reads a gridded
depth dataset plus JSON metadata, selects a depth per data row, reshapes the
flat depth sequence into a `(ny, nx)` grid, masks `-1.0` cells, orients the
grid by the latitude list, resolves a color-scale range, and renders.

Numeric values (floats in the source) are modelled as rationals `ℚ`: every
operation the claims touch is a comparison, a selection or a maximum, all of
which are exact. Fallible steps return `Except String`; an `Except.error`
models the source logging an error and returning from `main` before any
rendering or output writing. Warnings are modelled as emitted string lists.
-/

namespace PlotZ25

/-- One parsed command-line configuration, mirroring the fields produced by
`parse_arguments` (src/plot_z25.py lines 12-26). -/
structure Args where
  data_file : String
  meta_file : String
  output_file : String
  cmap : String
  alpha : ℚ
  scale_mode : String
  user_max : Option ℚ
  title : String
deriving Repr, DecidableEq

/-- Raw command-line input before parsing: `none` means the flag was absent. -/
structure RawArgs where
  data_file : Option String
  meta_file : Option String
  output_file : Option String
  cmap : Option String
  alpha : Option ℚ
  scale_mode : Option String
  user_max : Option ℚ
  title : Option String
deriving Repr, DecidableEq

/-- Embeds `parse_arguments` (lines 12-26): `argparse` rejects a missing
required flag (`--data_file`, `--meta_file`, `--output_file`) and a
`--scale_mode` value outside `choices=[metadata, datamax, user]`;
the remaining flags default as in the source. `argparse` performs no
cross-validation between `scale_mode` and `user_max`. -/
def parse_arguments (raw : RawArgs) : Except String Args :=
  match raw.data_file, raw.meta_file, raw.output_file with
  | some df, some mf, some outf =>
    let sm := raw.scale_mode.getD "metadata"
    if sm = "metadata" ∨ sm = "datamax" ∨ sm = "user" then
      .ok { data_file := df, meta_file := mf, output_file := outf,
            cmap := raw.cmap.getD "viridis", alpha := raw.alpha.getD 1,
            scale_mode := sm, user_max := raw.user_max,
            title := raw.title.getD "Z2.5 depth data for California CVMs." }
    else
      .error "argument --scale_mode: invalid choice"
  | _, _, _ => .error "the following arguments are required"

/-- Whether `parse_arguments` accepts the raw command line (argparse does
not exit with a usage error). -/
def parseSucceeds (raw : RawArgs) : Bool :=
  match parse_arguments raw with
  | .ok _ => true
  | .error _ => false

/-- The JSON metadata record (lines 39-45): typed fields plus the raw
key/value mapping `kv` in which the optional max-depth entry is looked up. -/
structure Metadata where
  lat_list : List ℚ
  lon_list : List ℚ
  nx : ℕ
  ny : ℕ
  kv : List (String × ℚ)
deriving Repr, DecidableEq

/-- First match for key `k` in the JSON mapping, as `k in meta` / `meta[k]`. -/
def lookupMeta (kv : List (String × ℚ)) (k : String) : Option ℚ :=
  (kv.find? (fun p => p.1 = k)).map Prod.snd

/-- Warning logged when the max-depth key is missing (line 50). -/
def missingMaxDepthWarning : String :=
  "max_depth not found in metadata. Using datamax mode instead."

/-- Embeds lines 47-52: the loader looks up the key "max depth" (with a
space). If present, `meta_max` is its value and the requested scale mode is
kept; if absent, a warning is logged and `args.scale_mode` is overwritten
with "datamax". Returns (effective mode, meta_max, warnings). -/
def loadMaxDepth (requested : String) (kv : List (String × ℚ)) :
    String × Option ℚ × List String :=
  match lookupMeta kv "max depth" with
  | some m => (requested, some m, [])
  | none => ("datamax", none, [missingMaxDepthWarning])

/-- Embeds the per-row depth selection of `np.where` (lines 60-64): when the
value at column index 2 equals 1 the depth is column index 3, otherwise
column index 4. A row is the list of its numeric columns. -/
def selectDepth (row : List ℚ) : ℚ :=
  if row.getD 2 0 = 1 then row.getD 3 0 else row.getD 4 0

/-- The flat depth sequence extracted from the data table (lines 60-64). -/
def depthsFlat (data : List (List ℚ)) : List ℚ :=
  data.map selectDepth

/-- Embeds `reshape((ny, nx))` (line 70) in row-major order: the first `nx`
values become row 0, the next `nx` values row 1, and so on. -/
def reshape : ℕ → ℕ → List ℚ → List (List ℚ)
  | 0, _, _ => []
  | n + 1, nx, flat => flat.take nx :: reshape n nx (flat.drop nx)

/-- Embeds `np.ma.masked_equal(depths, -1.0)` (line 71): the validity mask,
cell (i,j) is masked (invalid) exactly when its value equals -1.0. -/
def maskGrid (g : List (List ℚ)) : List (List Bool) :=
  g.map (fun row => row.map (fun x => x = -1))

/-- The unmasked cell values of the grid: every cell not equal to -1.0. -/
def unmaskedVals (g : List (List ℚ)) : List ℚ :=
  (g.flatten).filter (fun x => x ≠ -1)

/-- `depths.mask.all()` (line 86): every cell of the grid is masked. -/
def allMasked (g : List (List ℚ)) : Bool :=
  (unmaskedVals g).isEmpty

/-- `depths.max()` on the masked array (line 90): the maximum over unmasked
cells (callers guard the all-masked case, where the source sets 0 instead). -/
def maxUnmasked (g : List (List ℚ)) : ℚ :=
  match unmaskedVals g with
  | [] => 0
  | x :: xs => xs.foldl max x

/-- `lat_ascending = (lat_list[0] < lat_list[-1])` (line 74): the flip
decision reads only the first and last latitude entries. -/
def latAscending (lats : List ℚ) : Bool :=
  lats.getD 0 0 < lats.getD (lats.length - 1) 0

/-- `np.flipud` (line 76): reverse the rows of the grid. -/
def flipud (g : List (List ℚ)) : List (List ℚ) :=
  g.reverse

/-- Lines 74-77: flip the grid vertically unless the latitude endpoints are
ascending. -/
def orientGrid (lats : List ℚ) (g : List (List ℚ)) : List (List ℚ) :=
  if latAscending lats then g else flipud g

/-- Warning logged in datamax mode when every cell is masked (line 87). -/
def allMaskedWarning : String := "All data are missing; setting max to 0"

/-- Embeds the scale resolution (lines 80-98), a four-way case split on the
effective scale mode string: "metadata" uses `meta_max` (error if absent),
"datamax" uses the maximum unmasked cell (0 plus a warning if all cells are
masked), "user" uses `user_max` (error if absent), anything else is an
error. Returns `vmax` and the warnings emitted. -/
def resolveScale (mode : String) (metaMax userMax : Option ℚ)
    (g : List (List ℚ)) : Except String (ℚ × List String) :=
  if mode = "metadata" then
    match metaMax with
    | none => .error "Metadata mode selected but no max_depth found. Exiting."
    | some m => .ok (m, [])
  else if mode = "datamax" then
    if allMasked g then .ok (0, [allMaskedWarning])
    else .ok (maxUnmasked g, [])
  else if mode = "user" then
    match userMax with
    | none => .error "User max scale mode requires --user_max value"
    | some u => .ok (u, [])
  else
    .error "Invalid scale_mode. Exiting."

/-- What `main` hands to the renderer once every fallible pre-rendering step
has succeeded: the oriented masked grid, the color range (`vmin` fixed to 0
at line 100) and the effective scale mode, plus accumulated warnings. -/
structure RenderSpec where
  depths : List (List ℚ)
  vmin : ℚ
  vmax : ℚ
  mode : String
  warnings : List String
deriving Repr, DecidableEq

/-- Embeds the pure core of `main` (lines 36-101): metadata max-depth step,
depth extraction, size check against `nx*ny`, reshape, mask, orientation
flip, and scale resolution. `Except.error` models `logger.error` followed by
`return`, which aborts before any rendering and writes no output file. -/
def mainPipeline (args : Args) (meta : Metadata) (data : List (List ℚ)) :
    Except String RenderSpec :=
  let step := loadMaxDepth args.scale_mode meta.kv
  let mode := step.1
  let metaMax := step.2.1
  let w1 := step.2.2
  let flat := depthsFlat data
  if flat.length ≠ meta.nx * meta.ny then
    .error ("Data size mismatch: expected " ++ toString (meta.nx * meta.ny) ++
      " points, got " ++ toString flat.length)
  else
    let g := orientGrid meta.lat_list (reshape meta.ny meta.nx flat)
    match resolveScale mode metaMax args.user_max g with
    | .error e => .error e
    | .ok (vmax, w2) =>
      .ok { depths := g, vmin := 0, vmax := vmax, mode := mode,
            warnings := w1 ++ w2 }

/-- Whether a run reaches rendering and produces an output file: `main`
returns early on every error, so only an `ok` pipeline result renders. -/
def producesOutput (args : Args) (meta : Metadata)
    (data : List (List ℚ)) : Bool :=
  match mainPipeline args meta data with
  | .ok _ => true
  | .error _ => false

/-- One populated-places record with the attributes the source reads
(lines 147-158): NAME, POP_MAX (absent modelled as `none`), and the point
coordinates. -/
structure PlaceRec where
  name : String
  popMax : Option ℤ
  lon : ℚ
  lat : ℚ
deriving Repr, DecidableEq

/-- The geographic bounding box derived from the metadata coordinate lists
(lines 108-109). -/
structure Box where
  lon_min : ℚ
  lon_max : ℚ
  lat_min : ℚ
  lat_max : ℚ
deriving Repr, DecidableEq

/-- `if pop and pop >= 500000` (line 152): POP_MAX must be present, truthy
(nonzero) and at least 500000. -/
def popOk : Option ℤ → Bool
  | none => false
  | some p => p ≠ 0 && 500000 ≤ p

/-- The city-loop filter (lines 147-158): a record is plotted when its name
is not "Oakland", its population passes `popOk`, and its point lies inside
the bounding box, inclusive on all four edges. -/
def cityPlotted (b : Box) (r : PlaceRec) : Bool :=
  r.name ≠ "Oakland" && popOk r.popMax &&
    (b.lon_min ≤ r.lon && r.lon ≤ b.lon_max) &&
    (b.lat_min ≤ r.lat && r.lat ≤ b.lat_max)

/-- The records the city loop plots, in input order. -/
def plottedCities (b : Box) (recs : List PlaceRec) : List PlaceRec :=
  recs.filter (cityPlotted b)

/-- The marker drawn for a plotted city: a dot at the record's point
(line 155). -/
def cityMarker (r : PlaceRec) : ℚ × ℚ := (r.lon, r.lat)

/-- The name label drawn for a plotted city, offset by +0.1 in longitude and
+0.1 in latitude (line 156). -/
def cityLabel (r : PlaceRec) : (ℚ × ℚ) × String :=
  ((r.lon + 1/10, r.lat + 1/10), r.name)

/-! ### Helper lemmas -/

theorem reshape_length (ny nx : ℕ) (flat : List ℚ) :
    (reshape ny nx flat).length = ny := by
  induction ny generalizing flat with
  | zero => rfl
  | succ n ih => simp [reshape, ih]

theorem reshape_getD (ny nx : ℕ) (flat : List ℚ) (i j : ℕ)
    (hi : i < ny) (hj : j < nx) :
    (((reshape ny nx flat).getD i []).getD j 0) = flat.getD (i * nx + j) 0 := by
  induction ny generalizing flat i with
  | zero => omega
  | succ n ih =>
    cases i with
    | zero =>
      simp only [reshape, List.getD_cons_zero, Nat.zero_mul, Nat.zero_add]
      rw [List.getD_eq_getElem?_getD, List.getD_eq_getElem?_getD,
        List.getElem?_take_of_lt hj]
    | succ i' =>
      simp only [reshape, List.getD_cons_succ]
      rw [ih (flat.drop nx) i' (by omega)]
      have hidx : (i' + 1) * nx + j = nx + (i' * nx + j) := by ring
      rw [hidx, List.getD_eq_getElem?_getD, List.getD_eq_getElem?_getD,
        List.getElem?_drop]

theorem reshape_row_length (ny nx : ℕ) (flat : List ℚ)
    (h : flat.length = ny * nx) :
    ∀ row ∈ reshape ny nx flat, row.length = nx := by
  induction ny generalizing flat with
  | zero => simp [reshape]
  | succ n ih =>
    intro row hrow
    simp only [reshape, List.mem_cons] at hrow
    rcases hrow with rfl | hrow
    · simp only [List.length_take, h, Nat.succ_mul]
      omega
    · exact ih (flat.drop nx) (by simp [h, Nat.succ_mul]) row hrow

theorem reshape_flatten (ny nx : ℕ) (flat : List ℚ)
    (h : flat.length = ny * nx) :
    (reshape ny nx flat).flatten = flat := by
  induction ny generalizing flat with
  | zero =>
    simp only [Nat.zero_mul] at h
    simp [reshape, List.length_eq_zero.mp h]
  | succ n ih =>
    simp only [reshape, List.flatten_cons]
    rw [ih (flat.drop nx) (by simp [h, Nat.succ_mul]), List.take_append_drop]

theorem maskGrid_getD (g : List (List ℚ)) (i j : ℕ) :
    ((maskGrid g).getD i []).getD j false
      = decide ((g.getD i []).getD j 0 = -1) := by
  rcases hg : g[i]? with _ | row
  · have h1 : (maskGrid g).getD i [] = [] := by
      rw [List.getD_eq_getElem?_getD, maskGrid, List.getElem?_map, hg]
      rfl
    have h2 : g.getD i [] = [] := by
      rw [List.getD_eq_getElem?_getD, hg]
      rfl
    rw [h1, h2]
    simp
  · have h1 : (maskGrid g).getD i [] = row.map (fun x => decide (x = -1)) := by
      rw [List.getD_eq_getElem?_getD, maskGrid, List.getElem?_map, hg]
      rfl
    have h2 : g.getD i [] = row := by
      rw [List.getD_eq_getElem?_getD, hg]
      rfl
    rw [h1, h2]
    rcases hr : row[j]? with _ | x
    · rw [List.getD_eq_getElem?_getD, List.getElem?_map, hr,
        List.getD_eq_getElem?_getD, hr]
      simp
    · rw [List.getD_eq_getElem?_getD, List.getElem?_map, hr,
        List.getD_eq_getElem?_getD, hr]
      rfl

theorem chain'_lt_getD (lats : List ℚ) (h : List.Chain' (· < ·) lats)
    (h2 : 2 ≤ lats.length) :
    lats.getD 0 0 < lats.getD (lats.length - 1) 0 := by
  have hp : lats.Pairwise (· < ·) := List.chain'_iff_pairwise.mp h
  have h0 : 0 < lats.length := by omega
  have hl : lats.length - 1 < lats.length := by omega
  have hlt := List.pairwise_iff_getElem.mp hp 0 (lats.length - 1) h0 hl (by omega)
  rw [List.getD_eq_getElem?_getD, List.getD_eq_getElem?_getD,
    List.getElem?_eq_getElem h0, List.getElem?_eq_getElem hl]
  simpa using hlt

theorem chain'_gt_getD (lats : List ℚ) (h : List.Chain' (· > ·) lats)
    (h2 : 2 ≤ lats.length) :
    lats.getD (lats.length - 1) 0 < lats.getD 0 0 := by
  have hp : lats.Pairwise (· > ·) := List.chain'_iff_pairwise.mp h
  have h0 : 0 < lats.length := by omega
  have hl : lats.length - 1 < lats.length := by omega
  have hlt := List.pairwise_iff_getElem.mp hp 0 (lats.length - 1) h0 hl (by omega)
  rw [List.getD_eq_getElem?_getD, List.getD_eq_getElem?_getD,
    List.getElem?_eq_getElem h0, List.getElem?_eq_getElem hl]
  simpa using hlt

/-! ### Claim theorems -/

/-- C1: Depth selection is column-conditional per row: for every row of the
data table, if the value at column index 2 equals 1 the emitted depth equals
the value at column index 3, otherwise it equals the value at column
index 4 (and one depth is emitted per row). -/
theorem depth_selection_per_row (data : List (List ℚ)) (i : ℕ)
    (h : i < data.length) :
    (depthsFlat data).length = data.length ∧
    (depthsFlat data).getD i 0 =
      (if (data.getD i []).getD 2 0 = 1 then (data.getD i []).getD 3 0
       else (data.getD i []).getD 4 0) := by
  refine ⟨by simp [depthsFlat], ?_⟩
  rcases hd : data[i]? with _ | row
  · rw [List.getElem?_eq_none_iff] at hd
    omega
  · have hrow : data.getD i [] = row := by
      rw [List.getD_eq_getElem?_getD, hd]
      rfl
    rw [hrow]
    unfold depthsFlat
    rw [List.getD_eq_getElem?_getD, List.getElem?_map, hd]
    rfl

/-- C1 witness at a concrete table and row index. -/
theorem depth_selection_per_row_witness :
    (0 < [[(0:ℚ), 0, 1, 5, 9], [0, 0, 0, 9, 7]].length) ∧
    ((depthsFlat [[(0:ℚ), 0, 1, 5, 9], [0, 0, 0, 9, 7]]).length = 2 ∧
      (depthsFlat [[(0:ℚ), 0, 1, 5, 9], [0, 0, 0, 9, 7]]).getD 0 0 =
        (if (([[(0:ℚ), 0, 1, 5, 9], [0, 0, 0, 9, 7]].getD 0 []).getD 2 0 = 1)
         then ([[(0:ℚ), 0, 1, 5, 9], [0, 0, 0, 9, 7]].getD 0 []).getD 3 0
         else ([[(0:ℚ), 0, 1, 5, 9], [0, 0, 0, 9, 7]].getD 0 []).getD 4 0)) :=
  ⟨by decide, depth_selection_per_row _ 0 (by decide)⟩

/-- C2: For a data table whose row count equals nx*ny, the flat depth
sequence is reshaped into a (ny, nx) grid in row-major order — ny rows of nx
cells whose concatenation is the flat sequence, cell (i,j) holding flat
value i*nx+j — and a cell is masked invalid exactly when its value equals
-1.0. -/
theorem reshape_row_major_and_mask (nx ny : ℕ) (data : List (List ℚ))
    (h : data.length = nx * ny) :
    (reshape ny nx (depthsFlat data)).length = ny ∧
    (∀ row ∈ reshape ny nx (depthsFlat data), row.length = nx) ∧
    (reshape ny nx (depthsFlat data)).flatten = depthsFlat data ∧
    (∀ i j, i < ny → j < nx →
      ((reshape ny nx (depthsFlat data)).getD i []).getD j 0 =
        (depthsFlat data).getD (i * nx + j) 0) ∧
    (∀ i j,
      (((maskGrid (reshape ny nx (depthsFlat data))).getD i []).getD j false
          = true ↔
        ((reshape ny nx (depthsFlat data)).getD i []).getD j 0 = -1)) := by
  have hlen : (depthsFlat data).length = ny * nx := by
    simp [depthsFlat, h, Nat.mul_comm]
  refine ⟨reshape_length ny nx _, reshape_row_length ny nx _ hlen,
    reshape_flatten ny nx _ hlen,
    fun i j hi hj => reshape_getD ny nx _ i j hi hj,
    fun i j => ?_⟩
  rw [maskGrid_getD]
  simp

/-- C2 witness at the spec's example scenario: nx=2, ny=2, four data rows
giving flat depths [5, 7, 3, 2] and grid [[5, 7], [3, 2]]. -/
theorem reshape_row_major_and_mask_witness :
    ([[(0:ℚ), 0, 1, 5, 9], [0, 0, 0, 9, 7],
      [0, 0, 1, 3, 9], [0, 0, 0, 9, 2]] : List (List ℚ)).length = 2 * 2 ∧
    depthsFlat [[(0:ℚ), 0, 1, 5, 9], [0, 0, 0, 9, 7],
      [0, 0, 1, 3, 9], [0, 0, 0, 9, 2]] = [5, 7, 3, 2] ∧
    reshape 2 2 (depthsFlat [[(0:ℚ), 0, 1, 5, 9], [0, 0, 0, 9, 7],
      [0, 0, 1, 3, 9], [0, 0, 0, 9, 2]]) = [[5, 7], [3, 2]] ∧
    (reshape 2 2 (depthsFlat [[(0:ℚ), 0, 1, 5, 9], [0, 0, 0, 9, 7],
      [0, 0, 1, 3, 9], [0, 0, 0, 9, 2]])).flatten =
      depthsFlat [[(0:ℚ), 0, 1, 5, 9], [0, 0, 0, 9, 7],
        [0, 0, 1, 3, 9], [0, 0, 0, 9, 2]] :=
  ⟨by decide, by decide, by decide,
    (reshape_row_major_and_mask 2 2 _ (by decide)).2.2.1⟩

/-- C3 counterexample: a single-element latitude list is (vacuously)
strictly ascending, yet the code computes lat_list[0] < lat_list[-1] as
false and flips the grid, so "strictly ascending implies no flip" fails. -/
theorem flip_rule_counterexample :
    List.Chain' (fun a b => a < b) [(37:ℚ)] ∧
    orientGrid [(37:ℚ)] [[(1:ℚ)], [(2:ℚ)]] ≠ [[(1:ℚ)], [(2:ℚ)]] :=
  ⟨List.chain'_singleton _, by decide⟩

/-- C3 amended: for every latitude list with at least two entries, a
strictly ascending list causes no vertical flip, and a strictly descending
list causes a top-to-bottom flip after which row 0 is the last input row. -/
theorem flip_rule (lats : List ℚ) (g : List (List ℚ))
    (h2 : 2 ≤ lats.length) :
    (List.Chain' (fun a b => a < b) lats → orientGrid lats g = g) ∧
    (List.Chain' (fun a b => a > b) lats →
      orientGrid lats g = flipud g ∧
        (orientGrid lats g).head? = g.getLast?) := by
  constructor
  · intro h
    have hlt := chain'_lt_getD lats h h2
    have ht : latAscending lats = true := by
      unfold latAscending
      exact decide_eq_true hlt
    simp [orientGrid, ht]
  · intro h
    have hgt := chain'_gt_getD lats h h2
    have hf : latAscending lats = false := by
      unfold latAscending
      exact decide_eq_false (not_lt.mpr (le_of_lt hgt))
    refine ⟨by simp [orientGrid, hf], ?_⟩
    simp only [orientGrid, hf]
    exact List.getLast?_eq_head?_reverse.symm

/-- C3 witness: a two-entry ascending list leaves the grid unflipped; a
two-entry descending list flips it. -/
theorem flip_rule_witness :
    (2 ≤ ([(1:ℚ), 2]).length) ∧
    orientGrid [(1:ℚ), 2] [[(5:ℚ)], [(6:ℚ)]] = [[(5:ℚ)], [(6:ℚ)]] ∧
    orientGrid [(2:ℚ), 1] [[(5:ℚ)], [(6:ℚ)]] = flipud [[(5:ℚ)], [(6:ℚ)]] :=
  ⟨by decide,
    (flip_rule [(1:ℚ), 2] [[(5:ℚ)], [(6:ℚ)]] (by decide)).1
      (by simp [List.chain'_cons, List.chain'_singleton]),
    ((flip_rule [(2:ℚ), 1] [[(5:ℚ)], [(6:ℚ)]] (by decide)).2
      (by simp [List.chain'_cons, List.chain'_singleton])).1⟩

/-- C10: The flip decision reads only the first and last latitude entries:
whenever lat_list[0] >= lat_list[-1] (including single-element lists and
equal endpoints) the grid is flipped, and any two nonempty lists agreeing on
first and last entries yield the same flip decision regardless of interior
ordering. -/
theorem flip_endpoints_only (lats : List ℚ) (g : List (List ℚ))
    (h : lats ≠ [])
    (hge : lats.getD (lats.length - 1) 0 ≤ lats.getD 0 0) :
    orientGrid lats g = flipud g ∧
    (∀ lats' : List ℚ,
      lats'.getD 0 0 = lats.getD 0 0 →
      lats'.getD (lats'.length - 1) 0 = lats.getD (lats.length - 1) 0 →
      latAscending lats' = latAscending lats) := by
  constructor
  · have hf : latAscending lats = false := by
      unfold latAscending
      exact decide_eq_false (not_lt.mpr hge)
    simp [orientGrid, hf]
  · intro lats' h1 h2
    unfold latAscending
    rw [h1, h2]

/-- C10 witness: equal endpoints with a dipping interior flip the grid, and
replacing the interior entry does not change the decision. -/
theorem flip_endpoints_only_witness :
    ([(40:ℚ), 10, 40] ≠ ([] : List ℚ)) ∧
    [(40:ℚ), 10, 40].getD ([(40:ℚ), 10, 40].length - 1) 0 ≤
      [(40:ℚ), 10, 40].getD 0 0 ∧
    orientGrid [(40:ℚ), 10, 40] [[(1:ℚ)], [(2:ℚ)]] =
      flipud [[(1:ℚ)], [(2:ℚ)]] ∧
    latAscending [(40:ℚ), 99, 40] = latAscending [(40:ℚ), 10, 40] := by
  have hmain := flip_endpoints_only [(40:ℚ), 10, 40] [[(1:ℚ)], [(2:ℚ)]]
    (by decide) (by decide)
  exact ⟨by decide, by decide, hmain.1,
    hmain.2 [(40:ℚ), 99, 40] (by decide) (by decide)⟩

theorem le_foldl_max (x : ℚ) (l : List ℚ) : x ≤ l.foldl max x := by
  induction l generalizing x with
  | nil => exact le_refl x
  | cons a as ih => exact le_trans (le_max_left x a) (ih (max x a))

theorem mem_le_foldl_max (l : List ℚ) :
    ∀ (x a : ℚ), a ∈ l → a ≤ l.foldl max x := by
  induction l with
  | nil => intro x a h; cases h
  | cons b bs ih =>
    intro x a h
    rcases List.mem_cons.mp h with rfl | h'
    · exact le_trans (le_max_right x a) (le_foldl_max (max x a) bs)
    · exact ih (max x b) a h'

theorem foldl_max_mem (l : List ℚ) :
    ∀ x : ℚ, l.foldl max x = x ∨ l.foldl max x ∈ l := by
  induction l with
  | nil => intro x; exact Or.inl rfl
  | cons b bs ih =>
    intro x
    rcases ih (max x b) with h | h
    · rcases max_choice x b with hm | hm
      · exact Or.inl (by rw [List.foldl_cons, h, hm])
      · exact Or.inr (by rw [List.foldl_cons, h, hm]; exact List.mem_cons_self b bs)
    · exact Or.inr (List.mem_cons_of_mem b h)

theorem maxUnmasked_spec (g : List (List ℚ)) (h : allMasked g = false) :
    maxUnmasked g ∈ unmaskedVals g ∧
      ∀ x ∈ unmaskedVals g, x ≤ maxUnmasked g := by
  unfold allMasked at h
  rcases hu : unmaskedVals g with _ | ⟨v, vs⟩
  · rw [hu] at h; cases h
  · have hval : maxUnmasked g = vs.foldl max v := by
      unfold maxUnmasked
      rw [hu]
    rw [hval]
    constructor
    · rcases foldl_max_mem vs v with hm | hm
      · rw [hm]; exact List.mem_cons_self v vs
      · exact List.mem_cons_of_mem v hm
    · intro x hx
      rcases List.mem_cons.mp hx with rfl | hx'
      · exact le_foldl_max x vs
      · exact mem_le_foldl_max vs v x hx'

theorem resolveScale_datamax_ok (metaMax userMax : Option ℚ)
    (g : List (List ℚ)) :
    (allMasked g = true →
      resolveScale "datamax" metaMax userMax g = .ok (0, [allMaskedWarning])) ∧
    (allMasked g = false →
      resolveScale "datamax" metaMax userMax g = .ok (maxUnmasked g, [])) := by
  unfold resolveScale
  rw [if_neg (by decide), if_pos rfl]
  constructor
  · intro hm; rw [if_pos hm]
  · intro hm; rw [if_neg (by rw [hm]; exact Bool.false_ne_true)]

/-- C4: Scale resolution is a four-way case split on the effective mode
string: "metadata" with a max depth yields that value; "datamax" yields the
maximum over unmasked cells, or 0 with a warning when all cells are masked;
"user" yields the user max; any other string is an error. Every successful
pipeline run has vmin = 0. -/
theorem scale_resolution (metaMax userMax : Option ℚ) (g : List (List ℚ)) :
    (∀ m, metaMax = some m →
      resolveScale "metadata" metaMax userMax g = .ok (m, [])) ∧
    (allMasked g = true →
      resolveScale "datamax" metaMax userMax g = .ok (0, [allMaskedWarning])) ∧
    (allMasked g = false →
      resolveScale "datamax" metaMax userMax g = .ok (maxUnmasked g, []) ∧
      maxUnmasked g ∈ unmaskedVals g ∧
      ∀ x ∈ unmaskedVals g, x ≤ maxUnmasked g) ∧
    (∀ u, userMax = some u →
      resolveScale "user" metaMax userMax g = .ok (u, [])) ∧
    (∀ mode : String, mode ≠ "metadata" → mode ≠ "datamax" → mode ≠ "user" →
      ∃ e, resolveScale mode metaMax userMax g = .error e) ∧
    (∀ (args : Args) (meta : Metadata) (data : List (List ℚ)) (r : RenderSpec),
      mainPipeline args meta data = .ok r → r.vmin = 0) := by
  refine ⟨?_, (resolveScale_datamax_ok metaMax userMax g).1, ?_, ?_, ?_, ?_⟩
  · intro m hm
    unfold resolveScale
    rw [if_pos rfl, hm]
  · intro hm
    exact ⟨(resolveScale_datamax_ok metaMax userMax g).2 hm, maxUnmasked_spec g hm⟩
  · intro u hu
    unfold resolveScale
    rw [if_neg (by decide), if_neg (by decide), if_pos rfl, hu]
  · intro mode h1 h2 h3
    unfold resolveScale
    rw [if_neg h1, if_neg h2, if_neg h3]
    exact ⟨_, rfl⟩
  · intro args meta data r hr
    simp only [mainPipeline] at hr
    split at hr
    · cases hr
    · split at hr
      · cases hr
      · simp only [Except.ok.injEq] at hr
        rw [← hr]

/-- C4 witness: concrete resolutions in each mode, plus a concrete
successful run whose vmin is 0. -/
theorem scale_resolution_witness :
    resolveScale "metadata" (some 100) (some 7) [[(3:ℚ), -1]] = .ok (100, []) ∧
    allMasked [[(-1:ℚ), -1]] = true ∧
    resolveScale "datamax" (some 100) (some 7) [[(-1:ℚ), -1]] =
      .ok (0, [allMaskedWarning]) ∧
    allMasked [[(3:ℚ), -1]] = false ∧
    resolveScale "datamax" (some 100) (some 7) [[(3:ℚ), -1]] = .ok (3, []) ∧
    resolveScale "user" (some 100) (some 7) [[(3:ℚ), -1]] = .ok (7, []) ∧
    (∃ e, resolveScale "bogus" (some 100) (some 7) [[(3:ℚ), -1]] = .error e) ∧
    RenderSpec.vmin
      { depths := [[(5:ℚ)]], vmin := 0, vmax := 5,
        mode := "datamax", warnings := [] } = 0 := by
  have h1 := scale_resolution (some 100) (some 7) [[(3:ℚ), -1]]
  have h2 := scale_resolution (some 100) (some 7) [[(-1:ℚ), -1]]
  refine ⟨h1.1 100 rfl, by decide, h2.2.1 (by decide), by decide, ?_, ?_, ?_, ?_⟩
  · have := (h1.2.2.1 (by decide)).1
    rw [this]
    norm_num [maxUnmasked, unmaskedVals]
  · exact h1.2.2.2.1 7 rfl
  · exact h1.2.2.2.2.1 "bogus" (by decide) (by decide) (by decide)
  · exact h1.2.2.2.2.2
      { data_file := "d", meta_file := "m", output_file := "o",
        cmap := "viridis", alpha := 1, scale_mode := "datamax",
        user_max := none, title := "t" }
      { lat_list := [1, 2], lon_list := [1, 2], nx := 1, ny := 1,
        kv := [("max depth", 100)] }
      [[0, 0, 1, 5, 9]]
      { depths := [[(5:ℚ)]], vmin := 0, vmax := 5, mode := "datamax",
        warnings := [] }
      (by rfl)

theorem mainPipeline_datamax_ok (args : Args) (meta : Metadata)
    (data : List (List ℚ))
    (hmode : (loadMaxDepth args.scale_mode meta.kv).1 = "datamax")
    (hlen : (depthsFlat data).length = meta.nx * meta.ny) :
    producesOutput args meta data = true := by
  unfold producesOutput
  simp only [mainPipeline]
  rw [if_neg (fun hc => hc hlen), hmode]
  generalize orientGrid meta.lat_list (reshape meta.ny meta.nx (depthsFlat data)) = G
  have hok := resolveScale_datamax_ok (loadMaxDepth args.scale_mode meta.kv).2.1
    args.user_max G
  cases hm : allMasked G with
  | true => rw [hok.1 hm]
  | false => rw [hok.2 hm]

/-- C5: When the metadata mapping lacks the "max depth" key, the load step
is not fatal: it emits a warning and forces the effective scale mode to
"datamax" regardless of the requested --scale_mode, and a run with
well-sized data still succeeds. -/
theorem missing_max_depth_not_fatal (requested : String)
    (kv : List (String × ℚ)) (hmd : lookupMeta kv "max depth" = none) :
    loadMaxDepth requested kv = ("datamax", none, [missingMaxDepthWarning]) ∧
    (∀ (args : Args) (meta : Metadata) (data : List (List ℚ)),
      args.scale_mode = requested → meta.kv = kv →
      (depthsFlat data).length = meta.nx * meta.ny →
      producesOutput args meta data = true) := by
  have hload : loadMaxDepth requested kv =
      ("datamax", none, [missingMaxDepthWarning]) := by
    unfold loadMaxDepth
    rw [hmd]
  refine ⟨hload, ?_⟩
  intro args meta data hsm hkv hlen
  apply mainPipeline_datamax_ok args meta data _ hlen
  rw [hsm, hkv, hload]

/-- C5 witness: a metadata mapping without the key, a requested "metadata"
mode, and a 1x1 run that still succeeds. -/
theorem missing_max_depth_not_fatal_witness :
    loadMaxDepth "metadata" [("nx", 1)] =
      ("datamax", none, [missingMaxDepthWarning]) ∧
    producesOutput
      { data_file := "d", meta_file := "m", output_file := "o",
        cmap := "viridis", alpha := 1, scale_mode := "metadata",
        user_max := none, title := "t" }
      { lat_list := [1, 2], lon_list := [1, 2], nx := 1, ny := 1,
        kv := [("nx", 1)] }
      [[0, 0, 1, 5, 9]] = true :=
  ⟨(missing_max_depth_not_fatal "metadata" [("nx", 1)] (by decide)).1,
    (missing_max_depth_not_fatal "metadata" [("nx", 1)] (by decide)).2
      _ _ _ rfl rfl (by decide)⟩

/-- C9: The loader recognizes only the key "max depth" (with a space): a
mapping holding "max_depth" but not "max depth" is treated as having no max
depth, so the loader warns and forces the effective mode to "datamax". -/
theorem max_depth_key_spelling (kv : List (String × ℚ)) (requested : String)
    (v : ℚ) (h1 : lookupMeta kv "max depth" = none)
    (h2 : lookupMeta kv "max_depth" = some v) :
    loadMaxDepth requested kv = ("datamax", none, [missingMaxDepthWarning]) := by
  unfold loadMaxDepth
  rw [h1]

/-- C9 witness: a mapping with only the underscore spelling is treated as
missing. -/
theorem max_depth_key_spelling_witness :
    lookupMeta [("max_depth", (3000:ℚ))] "max depth" = none ∧
    lookupMeta [("max_depth", (3000:ℚ))] "max_depth" = some 3000 ∧
    loadMaxDepth "metadata" [("max_depth", (3000:ℚ))] =
      ("datamax", none, [missingMaxDepthWarning]) :=
  ⟨by decide, by decide,
    max_depth_key_spelling [("max_depth", (3000:ℚ))] "metadata" 3000
      (by decide) (by decide)⟩

/-- C6: When the number of extracted depth values differs from nx*ny the
pipeline stops right after the load stage with the size-mismatch error,
before any rendering, and produces no output. -/
theorem size_mismatch_aborts (args : Args) (meta : Metadata)
    (data : List (List ℚ))
    (h : (depthsFlat data).length ≠ meta.nx * meta.ny) :
    mainPipeline args meta data =
      .error ("Data size mismatch: expected " ++ toString (meta.nx * meta.ny)
        ++ " points, got " ++ toString (depthsFlat data).length) ∧
    producesOutput args meta data = false := by
  have hmp : mainPipeline args meta data =
      .error ("Data size mismatch: expected " ++ toString (meta.nx * meta.ny)
        ++ " points, got " ++ toString (depthsFlat data).length) := by
    simp only [mainPipeline]
    rw [if_pos h]
  exact ⟨hmp, by unfold producesOutput; rw [hmp]⟩

/-- C6 witness: a 2x2 grid fed three data rows aborts with the mismatch
error and produces no output. -/
theorem size_mismatch_aborts_witness :
    ((depthsFlat [[(0:ℚ), 0, 1, 5, 9], [0, 0, 0, 9, 7],
        [0, 0, 1, 3, 9]]).length ≠ 2 * 2) ∧
    producesOutput
      { data_file := "d", meta_file := "m", output_file := "o",
        cmap := "viridis", alpha := 1, scale_mode := "metadata",
        user_max := none, title := "t" }
      { lat_list := [1, 2], lon_list := [1, 2], nx := 2, ny := 2,
        kv := [("max depth", 100)] }
      [[(0:ℚ), 0, 1, 5, 9], [0, 0, 0, 9, 7], [0, 0, 1, 3, 9]] = false :=
  ⟨by decide,
    (size_mismatch_aborts
      { data_file := "d", meta_file := "m", output_file := "o",
        cmap := "viridis", alpha := 1, scale_mode := "metadata",
        user_max := none, title := "t" }
      { lat_list := [1, 2], lon_list := [1, 2], nx := 2, ny := 2,
        kv := [("max depth", 100)] }
      [[(0:ℚ), 0, 1, 5, 9], [0, 0, 0, 9, 7], [0, 0, 1, 3, 9]]
      (by decide)).2⟩

/-- C7 counterexample: with scale_mode "user" and no user_max — the
inconsistent configuration of the claim — `parse_arguments` accepts the
command line, and when the metadata also lacks the max-depth key the whole
run even succeeds (mode is downgraded to "datamax"), so the run is not
aborted either. -/
theorem config_error_counterexample :
    parseSucceeds
      { data_file := some "d", meta_file := some "m",
        output_file := some "o", cmap := none, alpha := none,
        scale_mode := some "user", user_max := none, title := none } = true ∧
    producesOutput
      { data_file := "d", meta_file := "m", output_file := "o",
        cmap := "viridis", alpha := 1, scale_mode := "user",
        user_max := none, title := "Z2.5 depth data for California CVMs." }
      { lat_list := [1, 2], lon_list := [1, 2], nx := 1, ny := 1, kv := [] }
      [[0, 0, 1, 5, 9]] = true := by
  constructor
  · rfl
  · rfl

/-- C7 amended: `parse_arguments` fails when a required argument is missing
or scale_mode is an invalid choice; the user_max consistency check is not in
the parser but in main: when the requested mode is "user", user_max is
absent and the metadata does contain the max-depth key (so the mode is not
downgraded), the run aborts with an error before any rendering. -/
theorem config_errors (raw : RawArgs) :
    ((raw.data_file = none ∨ raw.meta_file = none ∨ raw.output_file = none) →
      ∃ e, parse_arguments raw = .error e) ∧
    (raw.scale_mode.getD "metadata" ≠ "metadata" →
      raw.scale_mode.getD "metadata" ≠ "datamax" →
      raw.scale_mode.getD "metadata" ≠ "user" →
      ∃ e, parse_arguments raw = .error e) ∧
    (∀ (args : Args) (meta : Metadata) (data : List (List ℚ)),
      args.scale_mode = "user" → args.user_max = none →
      (lookupMeta meta.kv "max depth").isSome = true →
      producesOutput args meta data = false) := by
  refine ⟨?_, ?_, ?_⟩
  · intro hmiss
    unfold parse_arguments
    rcases hd : raw.data_file with _ | df
    · exact ⟨_, rfl⟩
    · rcases hm : raw.meta_file with _ | mf
      · exact ⟨_, rfl⟩
      · rcases ho : raw.output_file with _ | outf
        · exact ⟨_, rfl⟩
        · rw [hd, hm, ho] at hmiss
          rcases hmiss with hc | hc | hc <;> cases hc
  · intro h1 h2 h3
    unfold parse_arguments
    rcases hd : raw.data_file with _ | df
    · exact ⟨_, rfl⟩
    · rcases hm : raw.meta_file with _ | mf
      · exact ⟨_, rfl⟩
      · rcases ho : raw.output_file with _ | outf
        · exact ⟨_, rfl⟩
        · have hneg : ¬(raw.scale_mode.getD "metadata" = "metadata" ∨
              raw.scale_mode.getD "metadata" = "datamax" ∨
              raw.scale_mode.getD "metadata" = "user") := by
            intro hc
            rcases hc with hc | hc | hc
            · exact h1 hc
            · exact h2 hc
            · exact h3 hc
          exact ⟨"argument --scale_mode: invalid choice", if_neg hneg⟩
  · intro args meta data hmode humax hkey
    obtain ⟨m, hm⟩ := Option.isSome_iff_exists.mp hkey
    have hload : loadMaxDepth args.scale_mode meta.kv =
        ("user", some m, []) := by
      unfold loadMaxDepth
      rw [hm, hmode]
    unfold producesOutput
    simp only [mainPipeline, hload]
    by_cases hlen : (depthsFlat data).length = meta.nx * meta.ny
    · rw [if_neg (fun hc => hc hlen)]
      have hres : resolveScale "user" (some m) args.user_max
          (orientGrid meta.lat_list
            (reshape meta.ny meta.nx (depthsFlat data))) =
          .error "User max scale mode requires --user_max value" := by
        unfold resolveScale
        rw [if_neg (by decide), if_neg (by decide), if_pos rfl, humax]
      rw [hres]
    · rw [if_pos hlen]

/-- C7 witness: a command line with no required flags is rejected; an
invalid scale_mode is rejected; a "user"-mode run without user_max but with
max-depth metadata aborts. -/
theorem config_errors_witness :
    (∃ e, parse_arguments
      { data_file := none, meta_file := none, output_file := none,
        cmap := none, alpha := none, scale_mode := none, user_max := none,
        title := none } = .error e) ∧
    (∃ e, parse_arguments
      { data_file := some "d", meta_file := some "m",
        output_file := some "o", cmap := none, alpha := none,
        scale_mode := some "bogus", user_max := none,
        title := none } = .error e) ∧
    producesOutput
      { data_file := "d", meta_file := "m", output_file := "o",
        cmap := "viridis", alpha := 1, scale_mode := "user",
        user_max := none, title := "t" }
      { lat_list := [1, 2], lon_list := [1, 2], nx := 1, ny := 1,
        kv := [("max depth", 100)] }
      [[0, 0, 1, 5, 9]] = false :=
  ⟨(config_errors
      { data_file := none, meta_file := none, output_file := none,
        cmap := none, alpha := none, scale_mode := none, user_max := none,
        title := none }).1 (Or.inl rfl),
    (config_errors
      { data_file := some "d", meta_file := some "m",
        output_file := some "o", cmap := none, alpha := none,
        scale_mode := some "bogus", user_max := none,
        title := none }).2.1 (by decide) (by decide) (by decide),
    (config_errors
      { data_file := none, meta_file := none, output_file := none,
        cmap := none, alpha := none, scale_mode := none, user_max := none,
        title := none }).2.2 _ _ _ rfl rfl (by decide)⟩

/-- C8: A populated place named "Oakland" is never plotted; every other
record with recorded population at least 500000 whose point lies in the
bounding box (inclusive on all four edges) is plotted exactly once, as a
marker at its point plus a name label offset up-and-right. -/
theorem city_filter (b : Box) (recs : List PlaceRec) (hnd : recs.Nodup) :
    (∀ r ∈ plottedCities b recs, r.name ≠ "Oakland") ∧
    (∀ r ∈ recs, ∀ p : ℤ, r.name ≠ "Oakland" → r.popMax = some p →
      500000 ≤ p →
      b.lon_min ≤ r.lon → r.lon ≤ b.lon_max →
      b.lat_min ≤ r.lat → r.lat ≤ b.lat_max →
      (plottedCities b recs).count r = 1) ∧
    (∀ r : PlaceRec, cityMarker r = (r.lon, r.lat) ∧
      cityLabel r = ((r.lon + 1/10, r.lat + 1/10), r.name) ∧
      r.lon < (cityLabel r).1.1 ∧ r.lat < (cityLabel r).1.2) := by
  refine ⟨?_, ?_, ?_⟩
  · intro r hr
    rw [plottedCities, List.mem_filter] at hr
    have hp := hr.2
    unfold cityPlotted at hp
    simp only [Bool.and_eq_true, decide_eq_true_eq] at hp
    exact hp.1.1.1
  · intro r hr p hname hpop hp hlon1 hlon2 hlat1 hlat2
    have hplot : cityPlotted b r = true := by
      unfold cityPlotted popOk
      rw [hpop]
      have hp0 : p ≠ 0 := by omega
      simp [hname, hp0, hp, hlon1, hlon2, hlat1, hlat2]
    rw [plottedCities, List.count_filter hplot]
    exact List.count_eq_one_of_mem hnd hr
  · intro r
    refine ⟨rfl, rfl, ?_, ?_⟩
    · exact lt_add_of_pos_right r.lon (by norm_num)
    · exact lt_add_of_pos_right r.lat (by norm_num)

/-- C8 witness: with Oakland (population 500000, in bounds) and Los Angeles
(population 4000000, in bounds), only Los Angeles is plotted, exactly
once. -/
theorem city_filter_witness :
    plottedCities ⟨-125, -114, 32, 42⟩
      [⟨"Oakland", some 500000, -122, 37⟩,
       ⟨"Los Angeles", some 4000000, -118, 34⟩] =
      [⟨"Los Angeles", some 4000000, -118, 34⟩] ∧
    (plottedCities ⟨-125, -114, 32, 42⟩
      [⟨"Oakland", some 500000, -122, 37⟩,
       ⟨"Los Angeles", some 4000000, -118, 34⟩]).count
        ⟨"Los Angeles", some 4000000, -118, 34⟩ = 1 ∧
    cityLabel ⟨"Los Angeles", some 4000000, -118, 34⟩ =
      ((-118 + 1/10, 34 + 1/10), "Los Angeles") :=
  ⟨by decide,
    (city_filter ⟨-125, -114, 32, 42⟩
      [⟨"Oakland", some 500000, -122, 37⟩,
       ⟨"Los Angeles", some 4000000, -118, 34⟩] (by decide)).2.1
      ⟨"Los Angeles", some 4000000, -118, 34⟩ (by decide) 4000000
      (by decide) rfl (by decide) (by norm_num) (by norm_num)
      (by norm_num) (by norm_num),
    (city_filter ⟨-125, -114, 32, 42⟩
      [⟨"Oakland", some 500000, -122, 37⟩,
       ⟨"Los Angeles", some 4000000, -118, 34⟩] (by decide)).2.2
      ⟨"Los Angeles", some 4000000, -118, 34⟩ |>.2.1⟩

end PlotZ25
